import Mathlib

set_option maxRecDepth 8000

/-!
# Verification of the mood-tracker API core

Shallow embedding of `src/routers/api.js` (and the parts of `src/util.js` the
routes use, modelled from the specification where the file is absent from the
tree).  JavaScript numbers are modelled as `JNum` (NaN, the two infinities, or
an exact finite decimal); JavaScript values reaching the handlers are modelled
as `JVal`.  Database tables are lists of records, and each route handler becomes a
pure function from the request plus the relevant table state to a result value
that records the response and any writes performed.
-/

namespace MoodTracker

/-- An exact decimal `mant / 10 ^ exp`.  Every finite IEEE double is a finite
decimal (`m·2^(-k) = m·5^k/10^k`), so this represents the finite JavaScript
numbers the routes handle exactly, with executable integer arithmetic. -/
structure Dec where
  mant : Int
  exp : Nat
deriving DecidableEq

/-- The rational value of a decimal. -/
def Dec.toRat (d : Dec) : ℚ :=
  (d.mant : ℚ) / 10 ^ d.exp

/-- A JavaScript number: NaN, +Infinity, -Infinity, or a finite value
(an exact decimal). -/
inductive JNum where
  | nan
  | posInf
  | negInf
  | fin (d : Dec)
deriving DecidableEq

/-- A JavaScript value as seen by a request handler after body/query parsing:
`undefined`, `null`, a string, a number, or a boolean. -/
inductive JVal where
  | undef
  | jnull
  | str (s : String)
  | num (n : JNum)
  | boolean (b : Bool)
deriving DecidableEq

/-- The check `Math.abs(x) > 1` for a JavaScript number.  Note `Math.abs(NaN) > 1`
evaluates to `false` because every comparison with NaN is false. -/
def jsAbsGtOne : JNum → Bool
  | .nan => false
  | .posInf => true
  | .negInf => true
  | .fin d => decide ((10 : Int) ^ d.exp < |d.mant|)

/-- The check `typeof v == "number"`. -/
def JVal.isNumber : JVal → Bool
  | .num _ => true
  | _ => false

/-- The check `typeof v == "string"`. -/
def JVal.isStr : JVal → Bool
  | .str _ => true
  | _ => false

/-- The string payload of a `JVal`, defaulting to `""`. -/
def JVal.strD : JVal → String
  | .str s => s
  | _ => ""

/-- The numeric payload of a `JVal`, defaulting to NaN (as JavaScript
arithmetic on a non-number would produce). -/
def JVal.numD : JVal → JNum
  | .num n => n
  | _ => .nan

/-- JavaScript truthiness of a `JVal`. -/
def jvTruthy : JVal → Bool
  | .undef => false
  | .jnull => false
  | .str s => !(s == "")
  | .num .nan => false
  | .num (.fin d) => decide (d.mant ≠ 0)
  | .num .posInf => true
  | .num .negInf => true
  | .boolean b => b

/-- Truthiness of an optional string (absent and `""` are falsy), used for
`if (req.params.user)`, `if (req.headers.authorization)`, `req.query.sort &&`,
and `if (!req.query.users)`. -/
def strTruthy : Option String → Bool
  | none => false
  | some s => !(s == "")

/-- One character class of the username pattern `[a-z0-9_-]`. -/
def usernameChar (c : Char) : Bool :=
  decide (('a' ≤ c ∧ c ≤ 'z') ∨ ('0' ≤ c ∧ c ≤ '9') ∨ c = '_' ∨ c = '-')

/-- Whether `s.match` of the username pattern `[a-z0-9_-]` with length 3..32,
anchored at both ends, is non-null. -/
def usernameMatches (s : String) : Bool :=
  decide (3 ≤ s.length) && decide (s.length ≤ 32) && s.data.all usernameChar

/-- A row of the `users` table (the columns the embedded routes read). -/
structure MUser where
  id : Nat
  username : String
  password_hash : String
  token : String
  is_profile_private : Bool
  is_history_private : Bool
  stats_mood_sets : Nat
deriving DecidableEq

/-- A row of the `mood` table.  `id` is the insertion-ordered serial key;
`timestamp` is epoch milliseconds.  Pleasantness/energy are stored as
JavaScript numbers (the double columns can in particular receive NaN). -/
structure Sample where
  id : Nat
  timestamp : Int
  pleasantness : JNum
  energy : JNum
  user_id : Nat
deriving DecidableEq

/-- The record `fetchMood` resolves: the latest sample's id, timestamp and
values (or the synthetic defaults). -/
structure Mood where
  id : Nat
  timestamp : Int
  pleasantness : JNum
  energy : JNum
deriving DecidableEq

/-- The subject's sample with the highest identifier, if any. -/
def latestSample (samples : List Sample) (uid : Nat) : Option Sample :=
  (samples.filter (fun s => s.user_id == uid)).foldl
    (fun acc s =>
      match acc with
      | none => some s
      | some t => if t.id < s.id then some s else some t)
    none

/-- Modelled from the spec: `fetchMood` is exported by `src/util.js`, which is
not present in the tree; per §4.2 it fetches the subject's most recent sample
(highest identifier) and, when none exists, yields a synthetic sample with
timestamp 0 "so the window check below always fails".  The spec leaves the
synthetic id and value fields unspecified; they are taken as 0 here.  The
`parseInt` the caller applies to the stored bigint timestamp is the identity
on the modelled integer. -/
def fetchMood (samples : List Sample) (uid : Nat) : Mood :=
  match latestSample samples uid with
  | some s => ⟨s.id, s.timestamp, s.pleasantness, s.energy⟩
  | none => ⟨0, 0, .fin ⟨0, 0⟩, .fin ⟨0, 0⟩⟩

/-- The validation of `PUT /mood` (api.js:155-160): the request is rejected
unless `typeof pleasantness == "number"`, `typeof energy == "number"`,
`!(Math.abs(pleasantness) > 1)` and `!(Math.abs(energy) > 1)`. -/
def validMoodPair (p e : JVal) : Bool :=
  match p, e with
  | .num np, .num ne => !(jsAbsGtOne np) && !(jsAbsGtOne ne)
  | _, _ => false

/-- The error message of the `PUT /mood` validation. -/
def moodErrMsg : String :=
  "`pleasantness` and `energy` fields need to be a float from -1 to 1"

/-- The serial id the `insert into mood values (default, ...)` row receives:
one more than the largest id in the table. -/
def nextId (samples : List Sample) : Nat :=
  (samples.foldl (fun m s => max m s.id) 0) + 1

/-- Result of the `PUT /mood` handler: a 400 validation rejection, or a 200
`ok` together with the resulting `mood` table and the subject's resulting
`stats_mood_sets` counter. -/
inductive PutMoodResult where
  | badRequest (message : String)
  | ok (samples : List Sample) (stats : Nat)
deriving DecidableEq

/-- The `PUT /mood` handler (api.js:154-186): validate the pair, fetch the
latest sample, and either overwrite it in place (when
`lastMood.timestamp + 10000 > now`) or insert a fresh row and increment
`stats_mood_sets`. -/
def putMood (samples : List Sample) (uid stats : Nat) (now : Int) (p e : JVal) :
    PutMoodResult :=
  if !(validMoodPair p e) then
    .badRequest moodErrMsg
  else
    let lastMood := fetchMood samples uid
    if lastMood.timestamp + 10000 > now then
      .ok (samples.map fun s =>
        if s.id == lastMood.id then
          { s with pleasantness := p.numD, energy := e.numD, timestamp := now }
        else s) stats
    else
      .ok (samples ++ [⟨nextId samples, now, p.numD, e.numD, uid⟩]) (stats + 1)

/-! ## The subject-or-self resolver (`userParamOrAuth`, api.js:26-52) -/

/-- Outcome of the `userParamOrAuth` middleware: either `next()` was invoked
(with `req.user` possibly still unset) or a 401 JSON error was sent. -/
inductive ResolveOutcome where
  | proceed (user : Option MUser)
  | respond401 (message : String)
deriving DecidableEq

/-- The query `select * from users where username=$1 and is_profile_private=false and
is_history_private=false` (first row). -/
def findByUsernamePublic (db : List MUser) (s : String) : Option MUser :=
  db.find? fun u =>
    u.username == s && !u.is_profile_private && !u.is_history_private

/-- The query `select * from users where token=$1` (first row). -/
def findByToken (db : List MUser) (t : String) : Option MUser :=
  db.find? fun u => u.token == t

/-- The `userParamOrAuth` middleware (api.js:26-52).  With a truthy path
username: a pattern mismatch does `return next()` before any lookup (so the
downstream handler runs with no user); otherwise the privacy-gated lookup
either resolves or answers 401 "User not found".  With no truthy username the
bearer token resolves the subject or the answer is 401 "Unauthorized". -/
def userParamOrAuth (db : List MUser) (paramUser authHeader : Option String) :
    ResolveOutcome :=
  if strTruthy paramUser then
    let s := paramUser.getD ""
    if !(usernameMatches s) then
      .proceed none
    else
      match findByUsernamePublic db s with
      | some u => .proceed (some u)
      | none => .respond401 "User not found"
  else
    if strTruthy authHeader then
      match findByToken db (authHeader.getD "") with
      | some u => .proceed (some u)
      | none => .respond401 "Unauthorized"
    else
      .respond401 "Unauthorized"

/-! ## History formatting and the two history routes -/

/-- The value `Math.floor(d * 100)` as an integer: for `d = m/10^e` this is
`m·10^(2-e)` when `e ≤ 2` and `⌊m / 10^(e-2)⌋` (floored division) when
`e > 2`. -/
def decFloorTimesHundred (d : Dec) : Int :=
  if d.exp ≤ 2 then d.mant * 10 ^ (2 - d.exp)
  else Int.fdiv d.mant (10 ^ (d.exp - 2))

/-- The value `Math.floor(x * 100) / 100` on a finite JavaScript number: the floored
integer over two decimal places. -/
def decFloorHundredths (d : Dec) : Dec :=
  ⟨decFloorTimesHundred d, 2⟩

/-- The value `Math.floor(x * 100) / 100` on a JavaScript number (api.js:235-236,
319-320).  NaN and the infinities propagate through `Math.floor` and the
division unchanged. -/
def jsFloorHundredths : JNum → JNum
  | .nan => .nan
  | .posInf => .posInf
  | .negInf => .negInf
  | .fin d => .fin (decFloorHundredths d)

/-- One formatted history entry. -/
structure Entry where
  timestamp : Int
  pleasantness : JNum
  energy : JNum
deriving DecidableEq

/-- The per-row formatting both history routes apply. -/
def fmtEntry (s : Sample) : Entry :=
  ⟨s.timestamp, jsFloorHundredths s.pleasantness, jsFloorHundredths s.energy⟩

/-- The sort-direction translation both history routes use (api.js:208-214,
267-273): `"newest"` ↦ `"desc"`, `"oldest"` ↦ `"asc"`, anything else ↦ null. -/
def sortOf (q : Option String) : Option String :=
  if q == some "newest" then some "desc"
  else if q == some "oldest" then some "asc"
  else none

/-- The text a JavaScript template literal interpolates for the sort value:
the string itself, or `"null"` when the value is null. -/
def orderDirText : Option String → String
  | some d => d
  | none => "null"

/-- The persistence collaborator executing `... order by id <dir>`: `asc` and
`desc` order the rows by identifier; any other word in direction position is a
SQL syntax error, which makes the query fail (modelled as `none`). -/
def sortById (dir : String) (rows : List Sample) : Option (List Sample) :=
  if dir == "asc" then
    some (List.insertionSort (fun a b => a.id ≤ b.id) rows)
  else if dir == "desc" then
    some (List.insertionSort (fun a b => b.id ≤ a.id) rows)
  else
    none

/-- Result of `GET /history/all`: a 200 JSON error body, a failed SQL query
(recording the malformed order-by fragment), or the entry list. -/
inductive HistAllResult where
  | errResp (fields : List (String × String))
  | dbError (sqlFragment : String)
  | ok (entries : List Entry)
deriving DecidableEq

/-- The `GET /history/all/:user?` handler body (api.js:207-239), after the
resolver has produced the subject `uid`.  Note the query is built with
`order by id ${sort}`, so an absent/empty sort interpolates `null`. -/
def historyAll (samples : List Sample) (uid : Nat) (sortQ : Option String) :
    HistAllResult :=
  let sort := sortOf sortQ
  if strTruthy sortQ && sort.isNone then
    .errResp [("status", "error"),
              ("message", "`sort` must be one of ('newest', 'oldest')")]
  else
    match sortById (orderDirText sort)
        (samples.filter (fun s => s.user_id == uid)) with
    | none => .dbError ("order by id " ++ orderDirText sort)
    | some rows => .ok (rows.map fmtEntry)

/-! ## `parseInt`-based query parameter handling -/

/-- Digits-value of a decimal digit prefix. -/
def digitsVal (l : List Char) : Nat :=
  l.foldl (fun n c => 10 * n + (c.toNat - '0'.toNat)) 0

/-- JavaScript `parseInt` (base 10) on a string: skip leading spaces, read an
optional sign and then the longest digit prefix; `none` models the NaN result
when no digit is found.  (The radix-prefix forms and the rounding of results
beyond 2^53 are outside the inputs the routes are specified on.) -/
def jsParseInt (s : String) : Option Int :=
  let l := s.data.dropWhile (fun c => c == ' ')
  let signed : Bool × List Char :=
    match l with
    | '-' :: r => (true, r)
    | '+' :: r => (false, r)
    | _ => (false, l)
  let ds := signed.2.takeWhile (fun c => c.isDigit)
  if ds.isEmpty then none
  else some ((if signed.1 then -1 else 1) * (digitsVal ds : Int))

/-- The idiom `parseInt(q) || d`: the parse result unless it is NaN or 0 (both falsy),
in which case the default applies. -/
def parseIntOr (q : Option String) (d : Int) : Int :=
  match q with
  | none => d
  | some s =>
    match jsParseInt s with
    | none => d
    | some 0 => d
    | some n => n

/-- The check `Number.isSafeInteger` on an integral value: magnitude at most 2^53-1. -/
def isSafeInt (n : Int) : Bool :=
  decide (n.natAbs ≤ 2 ^ 53 - 1)

/-- The query parameters of `GET /history/:user?`, as raw optional strings. -/
structure HistQuery where
  limit : Option String
  page : Option String
  before : Option String
  after : Option String
  sort : Option String
deriving DecidableEq

/-- Result of `GET /history/:user?`: an error JSON (with the HTTP status the
code actually sets and the body fields in order), or a success carrying the
entries, `total`, `pages`, and whether the `mood` table was queried. -/
inductive HistResult where
  | errResp (httpStatus : Nat) (fields : List (String × String))
  | ok (httpStatus : Nat) (entries : List Entry) (total : Nat) (pages : Int)
      (queried : Bool)
deriving DecidableEq

/-- The `GET /history/:user?` handler body (api.js:261-325) for subject `uid`
with lifetime counter `stats`.  All three validation failures answer through
`res.json(...)` with no status call, hence HTTP 200; the limit failure's
message key is spelled `messge` in the source.  `pages` is
`Math.floor(stats_mood_sets / limit)` (floored division, `Int.fdiv`). -/
def getHistory (stats : Nat) (samples : List Sample) (uid : Nat) (now : Int)
    (q : HistQuery) : HistResult :=
  let limit := parseIntOr q.limit 25
  let page := parseIntOr q.page 0
  let pages := Int.fdiv stats limit
  let before := parseIntOr q.before now
  let after := parseIntOr q.after 0
  let sort := sortOf q.sort
  if limit < 1 ∨ 100 < limit then
    .errResp 200 [("status", "error"),
                  ("messge", "`limit` must be in range 1..100")]
  else if strTruthy q.sort && sort.isNone then
    .errResp 200 [("status", "error"),
                  ("message", "`sort` must be one of ('newest', 'oldest')")]
  else if after < 0 ∨ before ≤ after ∨ ¬isSafeInt before ∨ ¬isSafeInt after then
    .errResp 200 [("status", "error"), ("message", "Invalid time range")]
  else if page < 0 ∨ (page ≠ 0 ∧ pages ≤ page) then
    .ok 200 [] stats pages false
  else
    let rows := samples.filter fun s =>
      s.user_id == uid && after < s.timestamp && s.timestamp < before
    let sorted := (sortById (orderDirText (some (sort.getD "desc"))) rows).getD []
    .ok 200 (((sorted.drop (page * limit).toNat).take limit.toNat).map fmtEntry)
      stats pages true

/-! ## The metrics route (`GET /metrics`, api.js:327-381) -/

/-- Two-digit decimal rendering of `k < 100`. -/
def twoDigits (k : Nat) : String :=
  if k < 10 then "0" ++ toString k else toString k

/-- JavaScript `Number.prototype.toFixed(2)`: sign of the original value, then
the magnitude rounded to the nearest hundredth (ties upward) and rendered with
exactly two fraction digits.  NaN and the infinities render as their JS
strings. -/
def toFixed2 : JNum → String
  | .nan => "NaN"
  | .posInf => "Infinity"
  | .negInf => "-Infinity"
  | .fin d =>
    let sgn := if d.mant < 0 then "-" else ""
    let n := (Int.fdiv (200 * |d.mant| + 10 ^ d.exp) (2 * 10 ^ d.exp)).toNat
    sgn ++ toString (n / 100) ++ "." ++ twoDigits (n % 100)

/-- Lexicographic order on character code points (the collation `order by
username desc` applies to the ASCII usernames). -/
def charsLe : List Char → List Char → Bool
  | [], _ => true
  | _ :: _, [] => false
  | a :: as, b :: bs =>
    if a.toNat < b.toNat then true
    else if b.toNat < a.toNat then false
    else charsLe as bs

/-- Lexicographic string comparison by code points. -/
def strLe (a b : String) : Bool :=
  charsLe a.data b.data

/-- The descending-username relation of the metrics query. -/
def usernameDescR (a b : MUser) : Prop :=
  strLe b.username a.username = true

instance : DecidableRel usernameDescR :=
  fun a b => instDecidableEqBool (strLe b.username a.username) true

/-- The query `select id, username, stats_mood_sets from users where username=any($1)
and is_profile_private=false and is_history_private=false order by username
desc`. -/
def metricsUsers (db : List MUser) (names : List String) : List MUser :=
  List.insertionSort usernameDescR
    (db.filter fun u =>
      names.contains u.username && !u.is_profile_private
        && !u.is_history_private)

/-- One exposition line `metric{user="name"} value`. -/
def metricLine (metric uname value : String) : String :=
  metric ++ "\x7buser=\"" ++ uname ++ "\"\x7d " ++ value

/-- The line list the metrics route joins with `"\n"` (api.js:362-380). -/
def metricsBodyLines (db : List MUser) (samples : List Sample)
    (names : List String) : List String :=
  let users := metricsUsers db names
  ["# HELP user_energy Current energy of the user.",
   "# TYPE user_energy gauge"]
  ++ users.map (fun u =>
      metricLine "user_energy" u.username (toFixed2 (fetchMood samples u.id).energy))
  ++ [""]
  ++ ["# HELP user_pleasantness How pleasant the user is feeling.",
      "# TYPE user_pleasantness gauge"]
  ++ users.map (fun u =>
      metricLine "user_pleasantness" u.username
        (toFixed2 (fetchMood samples u.id).pleasantness))
  ++ [""]
  ++ ["# HELP user_mood_sets How often a user has changed their mood.",
      "# TYPE user_mood_sets counter"]
  ++ users.map (fun u =>
      metricLine "user_mood_sets" u.username (toString u.stats_mood_sets))

/-- JavaScript `String.prototype.split(",")` on the character list: splits at
every comma; the empty string yields one empty piece. -/
def splitCommaChars : List Char → List (List Char)
  | [] => [[]]
  | c :: rest =>
    if c = ',' then [] :: splitCommaChars rest
    else
      match splitCommaChars rest with
      | [] => [[c]]
      | h :: t => (c :: h) :: t

/-- JavaScript `s.split(",")`. -/
def splitComma (s : String) : List String :=
  (splitCommaChars s.data).map String.mk

/-- Result of `GET /metrics`: a 400 JSON error, or the plain-text body. -/
inductive MetricsResult where
  | errResp (httpStatus : Nat) (fields : List (String × String))
  | ok (body : String)
deriving DecidableEq

/-- The `GET /metrics` handler (api.js:327-381).  It requires a truthy `users`
query parameter, splits it on commas, rejects more than 16 names, and renders
the three metric blocks for the fully-public users among them. -/
def getMetrics (db : List MUser) (samples : List Sample)
    (usersQ : Option String) : MetricsResult :=
  if !(strTruthy usersQ) then
    .errResp 400 [("status", "error"), ("message", "Missing query param `users`")]
  else
    let names := splitComma (usersQ.getD "")
    if 16 < names.length then
      .errResp 400 [("status", "error"), ("message", "Too many users")]
    else
      .ok (String.intercalate "\n" (metricsBodyLines db samples names))

/-! ## `PATCH /me` (api.js:68-124) -/

/-- The body fields of `PATCH /me`. -/
structure PatchBody where
  username : JVal
  new_password : JVal
  confirm_password : JVal
  is_profile_private : JVal
  is_history_private : JVal
deriving DecidableEq

/-- The response part of the `PATCH /me` outcome. -/
inductive PatchResp where
  | err (httpStatus : Nat) (message : String)
  | ok
deriving DecidableEq

/-- A write the handler issues against the `users` table: the single bulk
`update users set username=$1, password_hash=$2, token=$3,
is_profile_private=$4, is_history_private=$5 where id=$6`. -/
inductive Effect where
  | updateUsers (username password_hash token : String)
      (is_profile_private is_history_private : Bool) (id : Nat)
deriving DecidableEq

/-- Whether `select 1 from users where username=$1` is truthy. -/
def usernameTaken (db : List MUser) (s : String) : Bool :=
  (db.find? fun u => u.username == s).isSome

/-- The in-memory mutation sequence `PATCH /me` applies to the fetched
`req.user` row (api.js:93-105) before issuing the bulk update: the username
when a string was supplied, then the password hash and a fresh token when a
new password was supplied, then each privacy flag when a boolean was
supplied. -/
def patchedUser (user : MUser) (body : PatchBody) (hashPw : String → String)
    (freshToken : String) : MUser :=
  let u1 := if body.username.isStr then
    { user with username := body.username.strD } else user
  let u2 := if body.new_password.isStr then
    { u1 with password_hash := hashPw body.new_password.strD,
              token := freshToken } else u1
  let u3 := match body.is_profile_private with
    | .boolean b => { u2 with is_profile_private := b }
    | _ => u2
  match body.is_history_private with
  | .boolean b => { u3 with is_history_private := b }
  | _ => u3

/-- The `PATCH /me` handler (api.js:68-124) for the authenticated row `user`.
`cmp` is the external `bcrypt.compare` collaborator (applied to the raw
`confirm_password` value and the stored hash), `hashPw` the `bcrypt.hash`
collaborator, and `freshToken` the `randomBytes(48).toString("base64url")`
value.  Returns the response and the list of update statements issued. -/
def patchMe (db : List MUser) (user : MUser) (body : PatchBody)
    (cmp : JVal → String → Bool) (hashPw : String → String)
    (freshToken : String) : PatchResp × List Effect :=
  if (jvTruthy body.username || jvTruthy body.new_password)
      && !(cmp body.confirm_password user.password_hash) then
    (.err 401 "Passwords do not match", [])
  else if body.username.isStr && !(usernameMatches body.username.strD) then
    (.err 400 "Invalid username", [])
  else if body.username.isStr && usernameTaken db body.username.strD then
    (.err 409 "Username taken", [])
  else
    let u := patchedUser user body hashPw freshToken
    (.ok, [.updateUsers u.username u.password_hash u.token
            u.is_profile_private u.is_history_private u.id])

/-- Applying a list of update statements to the `users` table. -/
def applyEffects (db : List MUser) : List Effect → List MUser
  | [] => db
  | .updateUsers un ph tk pp hp uid :: rest =>
    applyEffects
      (db.map fun u =>
        if u.id == uid then
          { u with username := un, password_hash := ph, token := tk,
                   is_profile_private := pp, is_history_private := hp }
        else u)
      rest

/-! ## Helper lemmas -/

theorem charsLe_total : ∀ l m : List Char, charsLe l m = true ∨ charsLe m l = true
  | [], _ => Or.inl rfl
  | _ :: _, [] => Or.inr rfl
  | a :: as, b :: bs => by
    simp only [charsLe]
    by_cases h1 : a.toNat < b.toNat
    · simp [h1]
    · by_cases h2 : b.toNat < a.toNat
      · simp [h1, h2]
      · simpa [h1, h2] using charsLe_total as bs

theorem charsLe_trans : ∀ l m n : List Char,
    charsLe l m = true → charsLe m n = true → charsLe l n = true
  | [], _, _, _, _ => rfl
  | _ :: _, [], _, h, _ => by simp [charsLe] at h
  | _ :: _, _ :: _, [], _, h => by simp [charsLe] at h
  | a :: as, b :: bs, c :: cs, h₁, h₂ => by
    simp only [charsLe] at h₁ h₂ ⊢
    by_cases hab : a.toNat < b.toNat <;> by_cases hbc : b.toNat < c.toNat
    · simp [show a.toNat < c.toNat from by omega]
    · by_cases hcb : c.toNat < b.toNat
      · rw [if_neg hbc, if_pos hcb] at h₂; exact absurd h₂ (by simp)
      · simp [show a.toNat < c.toNat from by omega]
    · by_cases hba : b.toNat < a.toNat
      · rw [if_neg hab, if_pos hba] at h₁; exact absurd h₁ (by simp)
      · simp [show a.toNat < c.toNat from by omega]
    · by_cases hba : b.toNat < a.toNat
      · rw [if_neg hab, if_pos hba] at h₁; exact absurd h₁ (by simp)
      · by_cases hcb : c.toNat < b.toNat
        · rw [if_neg hbc, if_pos hcb] at h₂; exact absurd h₂ (by simp)
        · rw [if_neg hab, if_neg hba] at h₁
          rw [if_neg hbc, if_neg hcb] at h₂
          rw [if_neg (show ¬(a.toNat < c.toNat) from by omega),
            if_neg (show ¬(c.toNat < a.toNat) from by omega)]
          exact charsLe_trans as bs cs h₁ h₂

instance : IsTotal MUser usernameDescR :=
  ⟨fun a b => charsLe_total b.username.data a.username.data⟩

instance : IsTrans MUser usernameDescR :=
  ⟨fun _ _ _ hab hbc => charsLe_trans _ _ _ hbc hab⟩

theorem sortById_mem {dir : String} {rows l : List Sample}
    (h : sortById dir rows = some l) : ∀ x ∈ l, x ∈ rows := by
  intro x hx
  unfold sortById at h
  split at h
  · cases h; exact (List.mem_insertionSort _).mp hx
  · split at h
    · cases h; exact (List.mem_insertionSort _).mp hx
    · cases h

theorem findByUsernamePublic_eq_none {db : List MUser} {s : String}
    (h : ∀ u ∈ db, u.username = s → u.is_profile_private = true) :
    findByUsernamePublic db s = none := by
  rw [findByUsernamePublic, List.find?_eq_none]
  intro u hu hcontra
  simp only [Bool.and_eq_true, beq_iff_eq, Bool.not_eq_true'] at hcontra
  obtain ⟨⟨hname, hprof⟩, _⟩ := hcontra
  have htrue := h u hu hname
  rw [htrue] at hprof
  exact Bool.noConfusion hprof

theorem decFloorHundredths_toRat (d : Dec) :
    (decFloorHundredths d).toRat = (⌊d.toRat * 100⌋ : ℚ) / 100 := by
  obtain ⟨m, e⟩ := d
  by_cases he : e ≤ 2
  · have hpow : ((10 : ℚ)) ^ (2 - e) * 10 ^ e = 100 := by
      rw [← pow_add, show 2 - e + e = 2 from by omega]; norm_num
    have harg : (Dec.mk m e).toRat * 100 = ((m * 10 ^ (2 - e) : ℤ) : ℚ) := by
      rw [Dec.toRat]
      push_cast
      rw [div_mul_eq_mul_div, div_eq_iff (by positivity : ((10 : ℚ)) ^ e ≠ 0),
        mul_assoc, hpow]
    rw [harg, Int.floor_intCast]
    simp only [decFloorHundredths, decFloorTimesHundred, if_pos he, Dec.toRat]
    norm_num
  · have hpow : ((10 : ℚ)) ^ (e - 2) * 100 = 10 ^ e := by
      rw [show (100 : ℚ) = 10 ^ 2 from by norm_num, ← pow_add,
        show e - 2 + 2 = e from by omega]
    have harg : (Dec.mk m e).toRat * 100 = (m : ℚ) / ((10 ^ (e - 2) : ℕ) : ℚ) := by
      rw [Dec.toRat, div_mul_eq_mul_div,
        div_eq_div_iff (by positivity : ((10 : ℚ)) ^ e ≠ 0)
          (by positivity : ((10 ^ (e - 2) : ℕ) : ℚ) ≠ 0)]
      push_cast
      rw [mul_assoc, mul_comm (100 : ℚ), hpow]
    have hdiv : Int.fdiv m ((10 : ℤ) ^ (e - 2)) = m / ((10 ^ (e - 2) : ℕ) : ℤ) := by
      rw [Int.fdiv_eq_ediv _ (by positivity)]
      norm_cast
    rw [harg, Rat.floor_intCast_div_natCast]
    simp only [decFloorHundredths, decFloorTimesHundred, if_neg he, Dec.toRat]
    rw [hdiv]
    norm_num

/-! ## Claim theorems -/

/-- C1: For every `PUT /mood` by an authenticated subject with valid
(pleasantness, energy): if the subject's latest sample (highest identifier; a
synthetic sample with timestamp 0 when none exists) satisfies
`latest.timestamp + 10000 > now`, the latest sample's pleasantness, energy and
timestamp are overwritten in place and `stats_mood_sets` is unchanged;
otherwise a brand-new sample with the current timestamp is inserted and
`stats_mood_sets` is incremented by exactly 1. -/
theorem putMood_coalescing (samples : List Sample) (uid stats : Nat)
    (now : Int) (p e : JVal) (hv : validMoodPair p e = true) :
    ((fetchMood samples uid).timestamp + 10000 > now →
      ∃ samples', putMood samples uid stats now p e = .ok samples' stats ∧
        samples'.length = samples.length ∧
        (∀ s ∈ samples, s.id ≠ (fetchMood samples uid).id → s ∈ samples') ∧
        (∀ s ∈ samples, s.id = (fetchMood samples uid).id →
          { s with pleasantness := p.numD, energy := e.numD,
                   timestamp := now } ∈ samples'))
    ∧ (¬((fetchMood samples uid).timestamp + 10000 > now) →
      putMood samples uid stats now p e =
        .ok (samples ++ [⟨nextId samples, now, p.numD, e.numD, uid⟩])
          (stats + 1)) := by
  constructor
  · intro hwin
    refine ⟨samples.map fun s =>
      if s.id == (fetchMood samples uid).id then
        { s with pleasantness := p.numD, energy := e.numD, timestamp := now }
      else s, ?_, ?_, ?_, ?_⟩
    · rw [putMood]
      simp only [hv, Bool.not_true, Bool.false_eq_true, if_false]
      rw [if_pos hwin]
    · exact samples.length_map _
    · intro s hs hne
      refine List.mem_map.mpr ⟨s, hs, ?_⟩
      rw [if_neg (by simpa using hne)]
    · intro s hs heq
      refine List.mem_map.mpr ⟨s, hs, ?_⟩
      rw [if_pos (by simpa using heq)]
  · intro hwin
    rw [putMood]
    simp only [hv, Bool.not_true, Bool.false_eq_true, if_false]
    rw [if_neg hwin]

/-- C1 witness: a concrete in-window overwrite and a concrete out-of-window
insert, obtained from `putMood_coalescing`. -/
theorem putMood_coalescing_witness :
    (∃ samples', putMood [⟨1, 100, .fin ⟨0, 0⟩, .fin ⟨0, 0⟩, 7⟩] 7 3 5000
        (.num (.fin ⟨5, 1⟩)) (.num (.fin ⟨25, 2⟩)) = .ok samples' 3 ∧
      samples'.length = [(⟨1, 100, .fin ⟨0, 0⟩, .fin ⟨0, 0⟩, 7⟩ : Sample)].length ∧
      (∀ s ∈ [(⟨1, 100, .fin ⟨0, 0⟩, .fin ⟨0, 0⟩, 7⟩ : Sample)],
        s.id ≠ (fetchMood [⟨1, 100, .fin ⟨0, 0⟩, .fin ⟨0, 0⟩, 7⟩] 7).id →
          s ∈ samples') ∧
      (∀ s ∈ [(⟨1, 100, .fin ⟨0, 0⟩, .fin ⟨0, 0⟩, 7⟩ : Sample)],
        s.id = (fetchMood [⟨1, 100, .fin ⟨0, 0⟩, .fin ⟨0, 0⟩, 7⟩] 7).id →
          { s with pleasantness := JVal.numD (.num (.fin ⟨5, 1⟩)),
                   energy := JVal.numD (.num (.fin ⟨25, 2⟩)),
                   timestamp := (5000 : Int) } ∈ samples'))
    ∧ putMood [⟨1, 100, .fin ⟨0, 0⟩, .fin ⟨0, 0⟩, 7⟩] 7 3 20000
        (.num (.fin ⟨5, 1⟩)) (.num (.fin ⟨25, 2⟩)) =
      .ok ([⟨1, 100, .fin ⟨0, 0⟩, .fin ⟨0, 0⟩, 7⟩] ++
        [⟨nextId [⟨1, 100, .fin ⟨0, 0⟩, .fin ⟨0, 0⟩, 7⟩], 20000,
          JVal.numD (.num (.fin ⟨5, 1⟩)), JVal.numD (.num (.fin ⟨25, 2⟩)), 7⟩])
        (3 + 1) :=
  ⟨(putMood_coalescing _ 7 3 5000 _ _ (by decide)).1 (by decide),
   (putMood_coalescing _ 7 3 20000 _ _ (by decide)).2 (by decide)⟩

/-- C5: the claim says an absent `sort` on `GET /history/all/:user?` succeeds
and returns every sample.  In the source the query is built with
`order by id ${sort}` where `sort` is `null` when the parameter is absent, so
the SQL reads `order by id null` — a syntax error — and the query fails
instead of returning entries.  The valid directions and the present-but-invalid
validation error behave as claimed. -/
theorem historyAll_absent_sort_fails :
    sortOf none = none
    ∧ orderDirText (sortOf none) = "null"
    ∧ historyAll [⟨1, 5000, .fin ⟨5, 1⟩, .fin ⟨25, 2⟩, 7⟩] 7 none
        = .dbError "order by id null"
    ∧ historyAll [⟨1, 5000, .fin ⟨5, 1⟩, .fin ⟨25, 2⟩, 7⟩] 7 (some "newest")
        = .ok [⟨5000, .fin ⟨50, 2⟩, .fin ⟨25, 2⟩⟩]
    ∧ historyAll [⟨1, 5000, .fin ⟨5, 1⟩, .fin ⟨25, 2⟩, 7⟩] 7 (some "oldest")
        = .ok [⟨5000, .fin ⟨50, 2⟩, .fin ⟨25, 2⟩⟩]
    ∧ historyAll [⟨1, 5000, .fin ⟨5, 1⟩, .fin ⟨25, 2⟩, 7⟩] 7 (some "bogus")
        = .errResp [("status", "error"),
            ("message", "`sort` must be one of ('newest', 'oldest')")] := by
  decide

/-- C6: the claim says every non-finite pleasantness/energy is rejected with
no write.  `Math.abs(NaN) > 1` is `false`, so NaN passes the validation and a
sample holding NaN is inserted (incrementing the counter), while ±Infinity,
non-numbers and out-of-range finite values are rejected with a 400 and no
write. -/
theorem putMood_accepts_nan :
    validMoodPair (.num .nan) (.num (.fin ⟨0, 0⟩)) = true
    ∧ putMood [] 7 0 20000 (.num .nan) (.num (.fin ⟨0, 0⟩))
        = .ok [⟨1, 20000, .nan, .fin ⟨0, 0⟩, 7⟩] 1
    ∧ validMoodPair (.num .posInf) (.num (.fin ⟨0, 0⟩)) = false
    ∧ validMoodPair (.num .negInf) (.num (.fin ⟨0, 0⟩)) = false
    ∧ validMoodPair (.str "0.5") (.num (.fin ⟨0, 0⟩)) = false
    ∧ validMoodPair (.num (.fin ⟨15, 1⟩)) (.num (.fin ⟨0, 0⟩)) = false
    ∧ putMood [] 7 0 20000 (.num (.fin ⟨15, 1⟩)) (.num (.fin ⟨0, 0⟩))
        = .badRequest moodErrMsg
    ∧ putMood [] 7 0 20000 (.str "0.5") (.num (.fin ⟨0, 0⟩))
        = .badRequest moodErrMsg := by
  decide

/-- C8: the claim says invalid parameters on `GET /history/:user?` yield HTTP
400 with a status discriminator and a `message` field.  All three validation
failures are sent through `res.json` with no status call, hence HTTP 200, and
the limit failure's body spells the message key `messge`, so it has no
`message` field at all. -/
theorem getHistory_validation_error_shape :
    getHistory 30 [] 7 1000000 ⟨some "101", none, none, none, none⟩
      = .errResp 200 [("status", "error"),
          ("messge", "`limit` must be in range 1..100")]
    ∧ ([("status", "error"),
        ("messge", "`limit` must be in range 1..100")].lookup "message"
        = (none : Option String))
    ∧ getHistory 30 [] 7 1000000 ⟨none, none, none, none, some "bogus"⟩
      = .errResp 200 [("status", "error"),
          ("message", "`sort` must be one of ('newest', 'oldest')")]
    ∧ getHistory 30 [] 7 1000000 ⟨none, none, some "5", some "9", none⟩
      = .errResp 200 [("status", "error"), ("message", "Invalid time range")] := by
  decide

/-- C2 counterexample: for the supplied username "AB", which does not match
`[a-z0-9_-]{3,32}`, the resolver invokes the downstream handler with no
subject resolved and sends no authorization error response, contradicting the
claim that every resolution failure yields an authorization error and that the
downstream handler runs only with a resolved subject. -/
theorem userParamOrAuth_malformed_no_error :
    userParamOrAuth [] (some "AB") none = .proceed none
    ∧ ∀ m : String, userParamOrAuth [] (some "AB") none ≠ .respond401 m := by
  have h : userParamOrAuth [] (some "AB") none = .proceed none := by decide
  exact ⟨h, fun m hm => by rw [h] at hm; exact ResolveOutcome.noConfusion hm⟩

/-- C2 (amended): for every request through the subject-or-self resolver, a
supplied (truthy) username that does not match `[a-z0-9_-]{3,32}` makes the
resolver skip resolution and invoke the downstream handler with no subject —
and that is the only way the downstream handler runs without a resolved
subject; every other resolution failure yields a 401 error response ("User not
found" or "Unauthorized"), and any resolved subject comes from the users
table. -/
theorem userParamOrAuth_characterization (db : List MUser)
    (paramUser authHeader : Option String) :
    (∀ s, paramUser = some s → strTruthy (some s) = true →
      usernameMatches s = false →
      userParamOrAuth db paramUser authHeader = .proceed none)
    ∧ (userParamOrAuth db paramUser authHeader = .proceed none →
      ∃ s, paramUser = some s ∧ strTruthy (some s) = true
        ∧ usernameMatches s = false)
    ∧ (∀ u, userParamOrAuth db paramUser authHeader = .proceed (some u) →
      u ∈ db)
    ∧ (∀ m, userParamOrAuth db paramUser authHeader = .respond401 m →
      m = "User not found" ∨ m = "Unauthorized") := by
  unfold userParamOrAuth
  by_cases hp : strTruthy paramUser = true
  · obtain ⟨s, rfl⟩ : ∃ s, paramUser = some s := by
      cases paramUser with
      | none => exact absurd hp (by decide)
      | some s => exact ⟨s, rfl⟩
    rw [if_pos hp]
    by_cases hm : usernameMatches s = true
    · simp only [Option.getD_some, hm, Bool.not_true, Bool.false_eq_true, if_false]
      cases hfind : findByUsernamePublic db s with
      | some u =>
        refine ⟨?_, ?_, ?_, ?_⟩
        · intro t ht _ hmt
          cases ht
          rw [hmt] at hm
          exact Bool.noConfusion hm
        · intro habs
          exact absurd habs (by simp)
        · intro u' hu'
          have : u = u' := by
            have := hu'
            simp only [ResolveOutcome.proceed.injEq, Option.some.injEq] at this
            exact this
          subst this
          exact List.mem_of_find?_eq_some hfind
        · intro m hm'
          exact absurd hm' (by simp)
      | none =>
        refine ⟨?_, ?_, ?_, ?_⟩
        · intro t ht _ hmt
          cases ht
          rw [hmt] at hm
          exact Bool.noConfusion hm
        · intro habs
          exact absurd habs (by simp)
        · intro u' hu'
          exact absurd hu' (by simp)
        · intro m hm'
          simp only [ResolveOutcome.respond401.injEq] at hm'
          exact Or.inl hm'.symm
    · rw [if_pos (by simpa using hm)]
      refine ⟨fun _ _ _ _ => rfl, fun _ => ⟨s, rfl, hp, by simpa using hm⟩, ?_, ?_⟩
      · intro u hu
        exact absurd hu (by simp)
      · intro m hm'
        exact absurd hm' (by simp)
  · rw [if_neg hp]
    by_cases ha : strTruthy authHeader = true
    · rw [if_pos ha]
      cases hfind : findByToken db (authHeader.getD "") with
      | some u =>
        refine ⟨?_, ?_, ?_, ?_⟩
        · intro s hs hts _
          cases hs
          exact absurd hts hp
        · intro habs
          exact absurd habs (by simp)
        · intro u' hu'
          have : u = u' := by
            simp only [ResolveOutcome.proceed.injEq, Option.some.injEq] at hu'
            exact hu'
          subst this
          exact List.mem_of_find?_eq_some hfind
        · intro m hm'
          exact absurd hm' (by simp)
      | none =>
        refine ⟨?_, ?_, ?_, ?_⟩
        · intro s hs hts _
          cases hs
          exact absurd hts hp
        · intro habs
          exact absurd habs (by simp)
        · intro u' hu'
          exact absurd hu' (by simp)
        · intro m hm'
          simp only [ResolveOutcome.respond401.injEq] at hm'
          exact Or.inr hm'.symm
    · rw [if_neg ha]
      refine ⟨?_, ?_, ?_, ?_⟩
      · intro s hs hts _
        cases hs
        exact absurd hts hp
      · intro habs
        exact absurd habs (by simp)
      · intro u' hu'
        exact absurd hu' (by simp)
      · intro m hm'
        simp only [ResolveOutcome.respond401.injEq] at hm'
        exact Or.inr hm'.symm

/-- C2 witness: the characterization applied to a concrete malformed username
and to a concrete token-resolution failure. -/
theorem userParamOrAuth_characterization_witness :
    userParamOrAuth [] (some "Xy") none = .proceed none
    ∧ ("Unauthorized" = "User not found" ∨ "Unauthorized" = "Unauthorized") :=
  ⟨(userParamOrAuth_characterization [] (some "Xy") none).1 "Xy" rfl
      (by decide) (by decide),
   (userParamOrAuth_characterization [] none (some "tok")).2.2.2 "Unauthorized"
      (by decide)⟩

/-- C4: for every user whose row has `is_profile_private = true` (whatever
`is_history_private` is), username-based lookup through the subject-or-self
resolver — shared by GET /mood/:user, GET /history/all/:user and
GET /history/:user — fails with the 401 "User not found" response, whose
message differs from the plain "Unauthorized"; and a username lookup succeeds
only for a user whose two privacy flags are both false. -/
theorem private_profile_unreachable (db : List MUser) (s : String)
    (authHeader : Option String) (hm : usernameMatches s = true)
    (hpriv : ∀ u ∈ db, u.username = s → u.is_profile_private = true) :
    userParamOrAuth db (some s) authHeader = .respond401 "User not found"
    ∧ ("User not found" : String) ≠ "Unauthorized"
    ∧ (∀ (db' : List MUser) (t : String) (u : MUser) (ah : Option String),
      t ≠ "" → userParamOrAuth db' (some t) ah = .proceed (some u) →
        u.username = t ∧ u.is_profile_private = false
          ∧ u.is_history_private = false) := by
  have hs : strTruthy (some s) = true := by
    simp only [strTruthy, Bool.not_eq_true', beq_eq_false_iff_ne, ne_eq]
    intro hempty
    subst hempty
    rw [usernameMatches] at hm
    simp at hm
  refine ⟨?_, by decide, ?_⟩
  · unfold userParamOrAuth
    rw [if_pos hs]
    simp only [Option.getD_some, hm, Bool.not_true, Bool.false_eq_true, if_false]
    rw [findByUsernamePublic_eq_none hpriv]
  · intro db' t u ah htne hres
    unfold userParamOrAuth at hres
    have ht : strTruthy (some t) = true := by
      simpa [strTruthy] using htne
    rw [if_pos ht] at hres
    by_cases hmt : usernameMatches t = true
    · simp only [Option.getD_some, hmt, Bool.not_true, Bool.false_eq_true,
        if_false] at hres
      cases hfind : findByUsernamePublic db' t with
      | some v =>
        rw [hfind] at hres
        simp only [ResolveOutcome.proceed.injEq, Option.some.injEq] at hres
        subst hres
        have hv := List.find?_some hfind
        simp only [Bool.and_eq_true, beq_iff_eq, Bool.not_eq_true'] at hv
        exact ⟨hv.1.1, hv.1.2, hv.2⟩
      | none =>
        rw [hfind] at hres
        exact absurd hres (by simp)
    · rw [if_pos (by simpa using hmt)] at hres
      exact absurd hres (by simp)

/-- C4 witness: a user with a private profile but public history is
unreachable by username for the concrete database. -/
theorem private_profile_unreachable_witness :
    userParamOrAuth [⟨1, "bob", "H", "T", true, false, 0⟩] (some "bob") none
      = .respond401 "User not found"
    ∧ ("User not found" : String) ≠ "Unauthorized" :=
  ⟨(private_profile_unreachable [⟨1, "bob", "H", "T", true, false, 0⟩] "bob"
      none (by decide) (by decide)).1,
   (private_profile_unreachable [⟨1, "bob", "H", "T", true, false, 0⟩] "bob"
      none (by decide) (by decide)).2.1⟩

theorem historyAll_ok_entries {samples : List Sample} {uid : Nat}
    {sortQ : Option String} {entries : List Entry}
    (h : historyAll samples uid sortQ = .ok entries) :
    ∃ rows, sortById (orderDirText (sortOf sortQ))
        (samples.filter fun s => s.user_id == uid) = some rows
      ∧ entries = rows.map fmtEntry := by
  unfold historyAll at h
  by_cases hc : (strTruthy sortQ && (sortOf sortQ).isNone) = true
  · rw [if_pos hc] at h
    exact absurd h (by simp)
  · rw [if_neg hc] at h
    cases hby : sortById (orderDirText (sortOf sortQ))
        (samples.filter fun s => s.user_id == uid) with
    | none =>
      rw [hby] at h
      exact absurd h (by simp)
    | some rows =>
      rw [hby] at h
      simp only [HistAllResult.ok.injEq] at h
      exact ⟨rows, rfl, h.symm⟩

/-- C3: for every paginated history request with otherwise-valid parameters,
`pages = floor(stats_mood_sets / limit)` is computed from the lifetime
counter, and whenever the parsed page is negative, or nonzero and at least
`pages`, the response is the empty entry list with `total = stats_mood_sets`
and `pages`, without querying samples. -/
theorem getHistory_short_circuit (stats : Nat) (samples : List Sample)
    (uid : Nat) (now : Int) (q : HistQuery)
    (hlim : 1 ≤ parseIntOr q.limit 25 ∧ parseIntOr q.limit 25 ≤ 100)
    (hsort : ¬(strTruthy q.sort = true ∧ sortOf q.sort = none))
    (htime : 0 ≤ parseIntOr q.after 0
      ∧ parseIntOr q.after 0 < parseIntOr q.before now
      ∧ isSafeInt (parseIntOr q.before now) = true
      ∧ isSafeInt (parseIntOr q.after 0) = true)
    (hpage : parseIntOr q.page 0 < 0
      ∨ (parseIntOr q.page 0 ≠ 0
        ∧ Int.fdiv (stats : Int) (parseIntOr q.limit 25) ≤ parseIntOr q.page 0)) :
    getHistory stats samples uid now q
      = .ok 200 [] stats (Int.fdiv (stats : Int) (parseIntOr q.limit 25)) false
    ∧ Int.fdiv (stats : Int) (parseIntOr q.limit 25)
      = ⌊(stats : ℚ) / ((parseIntOr q.limit 25 : ℤ) : ℚ)⌋ := by
  constructor
  · have h2 : ¬((strTruthy q.sort && (sortOf q.sort).isNone) = true) := by
      simpa only [Bool.and_eq_true, Option.isNone_iff_eq_none] using hsort
    have h3 : ¬(parseIntOr q.after 0 < 0
        ∨ parseIntOr q.before now ≤ parseIntOr q.after 0
        ∨ ¬(isSafeInt (parseIntOr q.before now) = true)
        ∨ ¬(isSafeInt (parseIntOr q.after 0) = true)) := by
      push_neg
      exact ⟨by omega, by omega, htime.2.2.1, htime.2.2.2⟩
    simp only [getHistory]
    rw [if_neg (by omega), if_neg h2, if_neg h3, if_pos hpage]
  · obtain ⟨n, hn⟩ := Int.eq_ofNat_of_zero_le
      (by omega : (0 : ℤ) ≤ parseIntOr q.limit 25)
    rw [hn, Int.fdiv_eq_ediv _ (by positivity),
      ← Rat.floor_intCast_div_natCast (stats : ℤ) n]
    norm_cast

/-- C3 witness: a subject with `stats_mood_sets = 30` and `limit = 10` has
`pages = 3`; both `page = 3` and `page = -1` short-circuit to the empty entry
list with `total = 30` and `pages = 3`. -/
theorem getHistory_short_circuit_witness :
    getHistory 30 [] 7 1000000 ⟨some "10", some "3", none, none, none⟩
      = .ok 200 [] 30 (Int.fdiv ((30 : Nat) : Int) (parseIntOr (some "10") 25)) false
    ∧ getHistory 30 [] 7 1000000 ⟨some "10", some "-1", none, none, none⟩
      = .ok 200 [] 30 (Int.fdiv ((30 : Nat) : Int) (parseIntOr (some "10") 25)) false :=
  ⟨(getHistory_short_circuit 30 [] 7 1000000 ⟨some "10", some "3", none, none, none⟩
      (by decide) (by decide) (by decide) (by decide)).1,
   (getHistory_short_circuit 30 [] 7 1000000 ⟨some "10", some "-1", none, none, none⟩
      (by decide) (by decide) (by decide) (by decide)).1⟩

/-- C7: every sample formatted by the two history routes has pleasantness and
energy truncated toward negative infinity to 2 decimal places: every returned
entry is the `fmtEntry` image of a stored sample of the subject, and on finite
values the truncation is exactly `floor(value*100)/100` (hence within `1/100`
below the value); `0.567` formats as `0.56` and `-0.001` as `-0.01`. -/
theorem history_entries_truncated (samples : List Sample) (uid : Nat)
    (sortQ : Option String) (stats : Nat) (now : Int) (q : HistQuery) :
    (∀ entries, historyAll samples uid sortQ = .ok entries →
      ∀ en ∈ entries, ∃ s, s ∈ samples ∧ s.user_id = uid ∧ en = fmtEntry s)
    ∧ (∀ st entries total pages qr,
      getHistory stats samples uid now q = .ok st entries total pages qr →
      ∀ en ∈ entries, ∃ s, s ∈ samples ∧ s.user_id = uid ∧ en = fmtEntry s)
    ∧ (∀ d : Dec, (decFloorHundredths d).toRat = (⌊d.toRat * 100⌋ : ℚ) / 100)
    ∧ (∀ d : Dec, (decFloorHundredths d).toRat ≤ d.toRat
        ∧ d.toRat < (decFloorHundredths d).toRat + 1 / 100)
    ∧ decFloorHundredths ⟨567, 3⟩ = ⟨56, 2⟩
    ∧ decFloorHundredths ⟨-1, 3⟩ = ⟨-1, 2⟩ := by
  refine ⟨?_, ?_, decFloorHundredths_toRat, ?_, by decide, by decide⟩
  · intro entries hok en hen
    obtain ⟨rows, hrows, hentries⟩ := historyAll_ok_entries hok
    subst hentries
    obtain ⟨s, hsrows, hfmt⟩ := List.mem_map.mp hen
    have hsfil := sortById_mem hrows s hsrows
    rw [List.mem_filter] at hsfil
    exact ⟨s, hsfil.1, by simpa using hsfil.2, hfmt.symm⟩
  · intro st entries total pages qr hok en hen
    simp only [getHistory] at hok
    split at hok
    · exact absurd hok (by simp)
    · split at hok
      · exact absurd hok (by simp)
      · split at hok
        · exact absurd hok (by simp)
        · split at hok
          · simp only [HistResult.ok.injEq] at hok
            obtain ⟨-, hentries, -⟩ := hok
            rw [← hentries] at hen
            exact absurd hen (by simp)
          · simp only [HistResult.ok.injEq] at hok
            obtain ⟨-, hentries, -⟩ := hok
            rw [← hentries] at hen
            obtain ⟨s, hstake, hfmt⟩ := List.mem_map.mp hen
            have hsdrop := List.mem_of_mem_take hstake
            have hssorted := List.mem_of_mem_drop hsdrop
            cases hby : sortById
                (orderDirText (some ((sortOf q.sort).getD "desc")))
                (samples.filter fun s =>
                  s.user_id == uid && parseIntOr q.after 0 < s.timestamp
                    && s.timestamp < parseIntOr q.before now) with
            | none =>
              rw [hby] at hssorted
              exact absurd hssorted (by simp)
            | some rows =>
              rw [hby] at hssorted
              simp only [Option.getD_some] at hssorted
              have hsfil := sortById_mem hby s hssorted
              rw [List.mem_filter] at hsfil
              have := hsfil.2
              simp only [Bool.and_eq_true, beq_iff_eq] at this
              exact ⟨s, hsfil.1, this.1.1, hfmt.symm⟩
  · intro d
    have h := decFloorHundredths_toRat d
    constructor
    · rw [h, div_le_iff₀ (by norm_num : (0 : ℚ) < 100)]
      exact Int.floor_le _
    · rw [h, show (⌊d.toRat * 100⌋ : ℚ) / 100 + 1 / 100
          = ((⌊d.toRat * 100⌋ : ℚ) + 1) / 100 from by ring,
        lt_div_iff₀ (by norm_num : (0 : ℚ) < 100)]
      exact Int.lt_floor_add_one _

/-- C7 witness: the truncation formula instantiated at `0.567`, together with
the concrete bounds at `-0.001`. -/
theorem history_entries_truncated_witness :
    (decFloorHundredths ⟨567, 3⟩).toRat = (⌊(Dec.mk 567 3).toRat * 100⌋ : ℚ) / 100
    ∧ ((decFloorHundredths ⟨-1, 3⟩).toRat ≤ (Dec.mk (-1) 3).toRat
      ∧ (Dec.mk (-1) 3).toRat < (decFloorHundredths ⟨-1, 3⟩).toRat + 1 / 100) :=
  ⟨(history_entries_truncated [] 0 none 0 0 ⟨none, none, none, none, none⟩).2.2.1
      ⟨567, 3⟩,
   (history_entries_truncated [] 0 none 0 0 ⟨none, none, none, none, none⟩).2.2.2.1
      ⟨-1, 3⟩⟩

theorem patchedUser_id (user : MUser) (body : PatchBody)
    (hashPw : String → String) (freshToken : String) :
    (patchedUser user body hashPw freshToken).id = user.id := by
  unfold patchedUser
  by_cases h1 : body.username.isStr = true <;>
    by_cases h2 : body.new_password.isStr = true <;>
    cases body.is_profile_private <;>
    cases body.is_history_private <;>
    simp [h1, h2]

theorem patchedUser_username (user : MUser) (body : PatchBody)
    (hashPw : String → String) (freshToken : String) :
    (patchedUser user body hashPw freshToken).username
      = if body.username.isStr then body.username.strD else user.username := by
  unfold patchedUser
  by_cases h1 : body.username.isStr = true <;>
    by_cases h2 : body.new_password.isStr = true <;>
    cases body.is_profile_private <;>
    cases body.is_history_private <;>
    simp [h1, h2]

theorem patchedUser_password_token (user : MUser) (body : PatchBody)
    (hashPw : String → String) (freshToken : String)
    (h : body.new_password.isStr = false) :
    (patchedUser user body hashPw freshToken).password_hash = user.password_hash
    ∧ (patchedUser user body hashPw freshToken).token = user.token := by
  unfold patchedUser
  by_cases h1 : body.username.isStr = true <;>
    cases body.is_profile_private <;>
    cases body.is_history_private <;>
    simp [h1, h]

/-- C9: a missing (or empty, hence falsy) `users` parameter and more than 16
comma-separated names are 400 validation errors; otherwise exactly the
fully-public users among the requested names are resolved (the rest silently
dropped), ordered by username descending, and the body is the three metric
blocks user_energy, blank, user_pleasantness, blank, user_mood_sets (the
counter valued by the integer lifetime `stats_mood_sets`), each preceded by
its help and type lines. -/
theorem getMetrics_spec (db : List MUser) (samples : List Sample) (s : String)
    (hs : strTruthy (some s) = true)
    (hlen : (splitComma s).length ≤ 16) :
    getMetrics db samples none
      = .errResp 400 [("status", "error"),
          ("message", "Missing query param `users`")]
    ∧ (∀ t, 16 < (splitComma t).length →
        getMetrics db samples (some t)
          = .errResp 400 [("status", "error"), ("message", "Too many users")])
    ∧ List.Sorted usernameDescR (metricsUsers db (splitComma s))
    ∧ (∀ u, u ∈ metricsUsers db (splitComma s) ↔
        u ∈ db ∧ (splitComma s).contains u.username = true
          ∧ u.is_profile_private = false ∧ u.is_history_private = false)
    ∧ getMetrics db samples (some s)
      = .ok (String.intercalate "\n" (metricsBodyLines db samples (splitComma s)))
    ∧ metricsBodyLines db samples (splitComma s)
      = ["# HELP user_energy Current energy of the user.",
         "# TYPE user_energy gauge"]
        ++ (metricsUsers db (splitComma s)).map (fun u =>
            metricLine "user_energy" u.username
              (toFixed2 (fetchMood samples u.id).energy))
        ++ [""]
        ++ ["# HELP user_pleasantness How pleasant the user is feeling.",
            "# TYPE user_pleasantness gauge"]
        ++ (metricsUsers db (splitComma s)).map (fun u =>
            metricLine "user_pleasantness" u.username
              (toFixed2 (fetchMood samples u.id).pleasantness))
        ++ [""]
        ++ ["# HELP user_mood_sets How often a user has changed their mood.",
            "# TYPE user_mood_sets counter"]
        ++ (metricsUsers db (splitComma s)).map (fun u =>
            metricLine "user_mood_sets" u.username
              (toString u.stats_mood_sets)) := by
  refine ⟨rfl, ?_, ?_, ?_, ?_, rfl⟩
  · intro t ht
    have htt : strTruthy (some t) = true := by
      rcases eq_or_ne t "" with rfl | hne
      · exact absurd ht (by decide)
      · simpa [strTruthy] using hne
    simp only [getMetrics, Option.getD_some]
    rw [if_neg (by simp [htt]), if_pos ht]
  · simp only [metricsUsers]
    exact List.sorted_insertionSort usernameDescR _
  · intro u
    simp only [metricsUsers, List.mem_insertionSort, List.mem_filter,
      Bool.and_eq_true, Bool.not_eq_true']
    tauto
  · simp only [getMetrics, Option.getD_some]
    rw [if_neg (by simp [hs]), if_neg (by omega)]

/-- C9 witness: the public users `zed` and `amy`, requested as `"zed,amy"`,
resolve in the order `zed`, `amy` to the three-block exposition. -/
theorem getMetrics_spec_witness :
    List.Sorted usernameDescR
      (metricsUsers [⟨1, "amy", "h", "t", false, false, 3⟩,
        ⟨2, "zed", "h", "t", false, false, 5⟩] (splitComma "zed,amy"))
    ∧ getMetrics
        [⟨1, "amy", "h", "t", false, false, 3⟩,
          ⟨2, "zed", "h", "t", false, false, 5⟩]
        [⟨1, 100, .fin ⟨5, 1⟩, .fin ⟨-2, 1⟩, 2⟩] (some "zed,amy")
      = .ok (String.intercalate "\n"
          (metricsBodyLines
            [⟨1, "amy", "h", "t", false, false, 3⟩,
              ⟨2, "zed", "h", "t", false, false, 5⟩]
            [⟨1, 100, .fin ⟨5, 1⟩, .fin ⟨-2, 1⟩, 2⟩] (splitComma "zed,amy"))) :=
  ⟨(getMetrics_spec [⟨1, "amy", "h", "t", false, false, 3⟩,
      ⟨2, "zed", "h", "t", false, false, 5⟩]
      [⟨1, 100, .fin ⟨5, 1⟩, .fin ⟨-2, 1⟩, 2⟩] "zed,amy"
      (by decide) (by decide)).2.2.1,
   (getMetrics_spec [⟨1, "amy", "h", "t", false, false, 3⟩,
      ⟨2, "zed", "h", "t", false, false, 5⟩]
      [⟨1, 100, .fin ⟨5, 1⟩, .fin ⟨-2, 1⟩, 2⟩] "zed,amy"
      (by decide) (by decide)).2.2.2.2.1⟩

/-- C10: every `PATCH /me` request ending in an error response (401 password
mismatch, 400 invalid username, or 409 username taken) issues no update
statement, leaving the stored row unchanged; only when every supplied field
has validated does the handler issue the single bulk update, whose fields come
from the validated merge of the supplied values over the stored row. -/
theorem patchMe_validates_before_update (db : List MUser) (user : MUser)
    (body : PatchBody) (cmp : JVal → String → Bool) (hashPw : String → String)
    (freshToken : String) :
    (∀ st msg, (patchMe db user body cmp hashPw freshToken).1 = .err st msg →
      (patchMe db user body cmp hashPw freshToken).2 = []
      ∧ applyEffects db (patchMe db user body cmp hashPw freshToken).2 = db
      ∧ ((st, msg) = (401, "Passwords do not match")
        ∨ (st, msg) = (400, "Invalid username")
        ∨ (st, msg) = (409, "Username taken")))
    ∧ ((patchMe db user body cmp hashPw freshToken).1 = .ok →
      ∃ un ph tk pp hp,
        (patchMe db user body cmp hashPw freshToken).2
          = [.updateUsers un ph tk pp hp user.id]
        ∧ (body.username.isStr = true →
            un = body.username.strD ∧ usernameMatches un = true
              ∧ usernameTaken db un = false)
        ∧ ((jvTruthy body.username || jvTruthy body.new_password) = true →
            cmp body.confirm_password user.password_hash = true)
        ∧ (body.username.isStr = false → un = user.username)
        ∧ (body.new_password.isStr = false →
            ph = user.password_hash ∧ tk = user.token)) := by
  by_cases c1 : ((jvTruthy body.username || jvTruthy body.new_password)
      && !(cmp body.confirm_password user.password_hash)) = true
  · have hpm : patchMe db user body cmp hashPw freshToken
        = (.err 401 "Passwords do not match", []) := by
      simp only [patchMe]
      rw [if_pos c1]
    rw [hpm]
    constructor
    · intro st msg h
      have h' : PatchResp.err 401 "Passwords do not match" = .err st msg := h
      cases h'
      exact ⟨rfl, rfl, Or.inl rfl⟩
    · intro h
      have h' : PatchResp.err 401 "Passwords do not match" = .ok := h
      exact PatchResp.noConfusion h'
  · by_cases c2 : (body.username.isStr
        && !(usernameMatches body.username.strD)) = true
    · have hpm : patchMe db user body cmp hashPw freshToken
          = (.err 400 "Invalid username", []) := by
        simp only [patchMe]
        rw [if_neg c1, if_pos c2]
      rw [hpm]
      constructor
      · intro st msg h
        have h' : PatchResp.err 400 "Invalid username" = .err st msg := h
        cases h'
        exact ⟨rfl, rfl, Or.inr (Or.inl rfl)⟩
      · intro h
        exact PatchResp.noConfusion (show PatchResp.err 400 "Invalid username"
          = .ok from h)
    · by_cases c3 : (body.username.isStr
          && usernameTaken db body.username.strD) = true
      · have hpm : patchMe db user body cmp hashPw freshToken
            = (.err 409 "Username taken", []) := by
          simp only [patchMe]
          rw [if_neg c1, if_neg c2, if_pos c3]
        rw [hpm]
        constructor
        · intro st msg h
          have h' : PatchResp.err 409 "Username taken" = .err st msg := h
          cases h'
          exact ⟨rfl, rfl, Or.inr (Or.inr rfl)⟩
        · intro h
          exact PatchResp.noConfusion (show PatchResp.err 409 "Username taken"
            = .ok from h)
      · have hpm : patchMe db user body cmp hashPw freshToken
            = (.ok, [.updateUsers
                (patchedUser user body hashPw freshToken).username
                (patchedUser user body hashPw freshToken).password_hash
                (patchedUser user body hashPw freshToken).token
                (patchedUser user body hashPw freshToken).is_profile_private
                (patchedUser user body hashPw freshToken).is_history_private
                (patchedUser user body hashPw freshToken).id]) := by
          simp only [patchMe]
          rw [if_neg c1, if_neg c2, if_neg c3]
        rw [hpm]
        constructor
        · intro st msg h
          exact PatchResp.noConfusion (show PatchResp.ok = .err st msg from h)
        · intro _
          refine ⟨(patchedUser user body hashPw freshToken).username,
            (patchedUser user body hashPw freshToken).password_hash,
            (patchedUser user body hashPw freshToken).token,
            (patchedUser user body hashPw freshToken).is_profile_private,
            (patchedUser user body hashPw freshToken).is_history_private,
            ?_, ?_, ?_, ?_, ?_⟩
          · rw [patchedUser_id]
          · intro hstr
            have hmatch : usernameMatches body.username.strD = true := by
              by_contra hf
              rw [Bool.not_eq_true] at hf
              exact c2 (by rw [hstr, hf]; rfl)
            have htaken : usernameTaken db body.username.strD = false := by
              by_contra hf
              rw [Bool.not_eq_false] at hf
              exact c3 (by rw [hstr, hf]; rfl)
            rw [patchedUser_username, hstr, if_pos rfl]
            exact ⟨rfl, hmatch, htaken⟩
          · intro htruthy
            by_contra hf
            rw [Bool.not_eq_true] at hf
            exact c1 (by rw [htruthy, hf]; rfl)
          · intro hstr
            rw [patchedUser_username, hstr, if_neg (by simp)]
          · intro hstr
            exact patchedUser_password_token user body hashPw freshToken hstr

/-- C10 witness: a concrete invalid-username request issues no update and
leaves the table unchanged. -/
theorem patchMe_validates_before_update_witness :
    (patchMe [] ⟨1, "bob", "H", "T", false, false, 0⟩
      ⟨.str "A!", .undef, .str "pw", .undef, .undef⟩
      (fun v h => v == .str "pw" && h == "H") id "newtok").2 = []
    ∧ applyEffects []
        (patchMe [] ⟨1, "bob", "H", "T", false, false, 0⟩
          ⟨.str "A!", .undef, .str "pw", .undef, .undef⟩
          (fun v h => v == .str "pw" && h == "H") id "newtok").2 = []
    ∧ (((400 : Nat), ("Invalid username" : String))
        = (401, "Passwords do not match")
      ∨ ((400 : Nat), ("Invalid username" : String)) = (400, "Invalid username")
      ∨ ((400 : Nat), ("Invalid username" : String)) = (409, "Username taken")) :=
  (patchMe_validates_before_update [] ⟨1, "bob", "H", "T", false, false, 0⟩
    ⟨.str "A!", .undef, .str "pw", .undef, .undef⟩
    (fun v h => v == .str "pw" && h == "H") id "newtok").1 400
    "Invalid username" (by decide)

end MoodTracker
